import Mathlib

/-!
Shallow embedding of the discover field-rendering subsystem
(`src/sentry/static/sentry/app/utils/discover/fieldRenderers.tsx`) and of the
`ThreadSelector` dropdown component, together with proofs about the claims of
the specification.

Design of the embedding:
* Row values (`EventData` cells) are dynamic JavaScript values coming from
  JSON; they are modelled by the inductive type `Value`
  (string / number / boolean / null / array / undefined).  JSON numbers are
  modelled as rationals (`Rat`); `NaN`, `Infinity` and `undefined` cannot occur
  inside JSON data, so `Value` does not carry them — places where JavaScript
  arithmetic can produce `NaN` (e.g. `parseInt` of a non-numeric string) are
  modelled with `Option`, `none` standing for `NaN`.
* React elements are modelled by the inductive type `ReactNode`: one
  constructor per component used by the source file, carrying exactly the
  props the source passes.  External presentational components
  (`Count`, `Duration`, `Version`, ...) are uninterpreted constructors.
* JavaScript objects are modelled as association lists; `for (const k in o)`
  iterates in list order (the keys used here are never integer-like, so the
  JavaScript insertion-order iteration agrees with list order).
* `getAggregateAlias` and `AGGREGATIONS` are imported by the source from
  `app/utils/discover/fields`, which is not part of this repository fragment;
  they are taken as parameters of the resolver functions, so all theorems
  about the resolvers hold for every choice of these externals.
-/

/-- A dynamic JavaScript value as it can appear in an `EventData` row
(data arriving as JSON, plus `undefined` for absent properties). -/
inductive Value where
  | str (s : String)
  | num (q : Rat)
  | bool (b : Bool)
  | null
  | arr (vs : List Value)
  | undefined

/-- JavaScript truthiness of a `Value` (`Boolean(v)`).  Arrays are always
truthy, `0`, `""`, `false`, `null` and `undefined` are falsy. -/
def jsTruthy : Value → Bool
  | .str s => !(s = "")
  | .num q => !(q = 0)
  | .bool b => b
  | .null => false
  | .arr _ => true
  | .undefined => false

/-- Whether a `Value` is the number `0` — the JavaScript strict comparison
`v === 0` for our value model. -/
def isNumZero : Value → Bool
  | .num q => q = 0
  | _ => false

/-- Whether a `Value` is a number — the JavaScript test
`typeof v === 'number'`. -/
def isNum : Value → Bool
  | .num _ => true
  | _ => false

mutual
/-- JavaScript `String(v)` conversion.  For a non-integral number JavaScript
prints a decimal expansion; no claim depends on that case, and it is rendered
here as `num/den`. -/
def jsToString : Value → String
  | .str s => s
  | .num q => if q.den = 1 then toString q.num else toString q.num ++ "/" ++ toString q.den
  | .bool b => if b then "true" else "false"
  | .null => "null"
  | .arr vs => jsToStringList vs
  | .undefined => "undefined"

/-- `Array.prototype.toString`: elements joined with `,`, where `null` and
`undefined` elements become the empty string. -/
def jsToStringList : List Value → String
  | [] => ""
  | v :: vs =>
    let head := match v with
      | .null => ""
      | .undefined => ""
      | w => jsToString w
    match vs with
    | [] => head
    | _ => head ++ "," ++ jsToStringList vs
end

/-- `String.prototype.startsWith`, computed on the underlying character
lists (Lean's own `String.startsWith` is byte-position based and not
kernel-reducible, which concrete evaluation needs). -/
def strStartsWith (s p : String) : Bool := p.data.isPrefixOf s.data

/-- The `for (const alias in table) if (name.startsWith(alias))` iteration
pattern of the source: the first entry whose key is a prefix of `name`, in
table order. -/
def findPrefixEntry {α : Type} : List (String × α) → String → Option (String × α)
  | [], _ => none
  | kv :: rest, name => if strStartsWith name kv.1 then some kv else findPrefixEntry rest name

/-- `String.prototype.split` with a single-character separator (the only form
the source uses), computed on the underlying character lists.  As in
JavaScript, splitting the empty string yields `[""]`. -/
def splitOnChar (sep : Char) : List Char → List (List Char)
  | [] => [[]]
  | c :: cs =>
    let rest := splitOnChar sep cs
    if c = sep then [] :: rest
    else
      match rest with
      | r :: rs => (c :: r) :: rs
      | [] => [[c]]

/-- `s.split(sep)` for a one-character separator string. -/
def jsSplit (s : String) (sep : Char) : List String :=
  (splitOnChar sep s.data).map String.mk

/-- Numeric value of a list of decimal digit characters. -/
def digitsVal (cs : List Char) : Nat :=
  cs.foldl (fun n c => n * 10 + (c.toNat - '0'.toNat)) 0

/-- JavaScript `parseInt(s, 10)`: skip leading whitespace, read an optional
sign and then a maximal run of decimal digits; `none` models the `NaN` result
when no digit is found. -/
def jsParseInt (s : String) : Option Int :=
  let t := s.data.dropWhile Char.isWhitespace
  let (sign, rest) :=
    match t with
    | '-' :: cs => ((-1 : Int), cs)
    | '+' :: cs => ((1 : Int), cs)
    | cs => ((1 : Int), cs)
  let digits := rest.takeWhile Char.isDigit
  if digits = [] then none
  else some (sign * (digitsVal digits : Int))

/-- JavaScript `Number(s)` for a string: the empty/whitespace string is `0`,
an optionally signed decimal literal is its value, anything else is `NaN`
(`none`).  (Hex and exponent forms are not needed by this subsystem.) -/
def jsStringToNumber (s : String) : Option Rat :=
  let t := (s.data.dropWhile Char.isWhitespace).reverse.dropWhile Char.isWhitespace |>.reverse
  if t = [] then some 0
  else
    let (sign, rest) :=
      match t with
      | '-' :: cs => ((-1 : Rat), cs)
      | '+' :: cs => ((1 : Rat), cs)
      | cs => ((1 : Rat), cs)
    match splitOnChar '.' rest with
    | [intPart] =>
      if intPart ≠ [] ∧ intPart.all Char.isDigit then
        some (sign * (digitsVal intPart : Rat))
      else none
    | [intPart, fracPart] =>
      if (intPart ≠ [] ∨ fracPart ≠ []) ∧ intPart.all Char.isDigit ∧
          fracPart.all Char.isDigit then
        some (sign * ((digitsVal intPart : Rat) +
          (digitsVal fracPart : Rat) / ((10 : Rat) ^ fracPart.length)))
      else none
    | _ => none

/-- JavaScript `Number(v)` coercion of a dynamic value; `none` models `NaN`. -/
def jsToNumber : Value → Option Rat
  | .num q => some q
  | .bool b => some (if b then 1 else 0)
  | .null => some 0
  | .undefined => none
  | .str s => jsStringToNumber s
  | .arr vs => jsStringToNumber (jsToStringList vs)

/-- A row of the discover result table (`EventData`): a JavaScript object
mapping field names to dynamic values, modelled as an association list in
property-insertion order. -/
abbrev EventData := List (String × Value)

/-- First-binding association-list lookup: the JavaScript object property
read `o[k]` for our object model. -/
def assocLookup {α : Type} : List (String × α) → String → Option α
  | [], _ => none
  | kv :: rest, k => if kv.1 = k then some kv.2 else assocLookup rest k

/-- Property access `data[field]`: the first binding wins (JavaScript objects
have unique keys); an absent property reads as `undefined`. -/
def getField (data : EventData) (field : String) : Value :=
  (assocLookup data field).getD .undefined

/-- The type metadata map (`MetaType`): field name to declared type tag. -/
abbrev MetaType := List (String × String)

/-- Lookup `meta[field]`, `none` when absent (`undefined` in JavaScript). -/
def metaLookup (meta : MetaType) (field : String) : Option String :=
  assocLookup meta field

/-- The organization descriptor; only its slug is used by this subsystem. -/
structure Organization where
  slug : String

/-- The navigation location context; opaque to this subsystem. -/
structure Location where
  mk ::

/-- The contextual baggage handed to every render function. -/
structure RenderBaggage where
  organization : Organization
  location : Location

/-- The interpolated tooltip title built by `tct` in the `user_misery`
renderer: "[affectedUsers] out of [totalUsers] ([miseryPercentage]%) unique
users waited more than [duration]ms".  `miseryPercentage` is stored as the
rational value before `toFixed(2)` display formatting, and `duration` is
`none` when the limit parse yielded `NaN`. -/
structure MiseryTitle where
  affectedUsers : Value
  totalUsers : Value
  miseryPercentage : Option Rat
  duration : Option Int

/-- A rendered React element: one constructor per component/JSX form produced
by the embedded source, carrying the props the source passes.  `rvalue` is a
dynamic value placed directly into JSX. -/
inductive ReactNode where
  | null
  | rtext (s : String)
  | rvalue (v : Value)
  | container (child : ReactNode)
  | numberContainer (child : ReactNode)
  | emptyValueContainer (child : ReactNode)
  | barContainer (child : ReactNode)
  | versionContainer (child : ReactNode)
  | emptyValueSpan
  | eventId (value : String)
  | overflowLink (target : String) (ariaLabel : Value) (child : ReactNode)
  | styledShortId (shortId : String)
  | projectsBadge (orgSlug : String) (slug : Value)
  | userBadge (user : Value)
  | version (v : Value)
  | styledDateTime (date : Value)
  | durationElem (seconds : Rat) (fixedDigits : Nat)
  | count (value : Rat)
  | formattedFloat (v : Rat) (digits : Nat)
  | formattedPercentage (v : Rat)
  | tooltip (title : MiseryTitle) (child : ReactNode)
  | scoreBar (size : Nat) (score : Option Int) (paletteSize : Nat) (radius : Nat)

/-- The text content React displays for a raw `Value` placed in JSX: strings
and numbers print, arrays concatenate their children, and `null`, `undefined`
and booleans render nothing. -/
def reactValueText : Value → String
  | .str s => s
  | .num q => if q.den = 1 then toString q.num else toString q.num ++ "/" ++ toString q.den
  | .bool _ => ""
  | .null => ""
  | .undefined => ""
  | .arr vs => String.join (vs.map (fun v =>
      match v with
      | .str s => s
      | .num q => if q.den = 1 then toString q.num else toString q.num ++ "/" ++ toString q.den
      | _ => ""))

/-- A generic type formatter: sortability flag plus a render function taking
the field name, the row and the baggage (`FieldFormatter` in the source). -/
structure FieldFormatter where
  isSortable : Bool
  renderFunc : String → EventData → RenderBaggage → ReactNode

/-- `FIELD_FORMATTERS.boolean.renderFunc`: localized yes/no by truthiness. -/
def booleanRenderFunc (field : String) (data : EventData) (_b : RenderBaggage) : ReactNode :=
  .container (if jsTruthy (getField data field) then .rtext "yes" else .rtext "no")

/-- `FIELD_FORMATTERS.date.renderFunc`: a `StyledDateTime` when the value is
truthy, else the empty-value placeholder.  (`getDynamicText` passes its
`value` through outside of test mode and is modelled as the identity.) -/
def dateRenderFunc (field : String) (data : EventData) (_b : RenderBaggage) : ReactNode :=
  .container (if jsTruthy (getField data field)
    then .styledDateTime (getField data field)
    else .emptyValueSpan)

/-- `FIELD_FORMATTERS.duration.renderFunc`: for numbers, a `Duration` element
with `seconds = value / 1000` and two fixed digits; else the placeholder. -/
def durationRenderFunc (field : String) (data : EventData) (_b : RenderBaggage) : ReactNode :=
  .numberContainer (match getField data field with
    | .num q => .durationElem (q / 1000) 2
    | _ => .emptyValueSpan)

/-- `FIELD_FORMATTERS.integer.renderFunc`: a `Count` element for numbers,
else the placeholder. -/
def integerRenderFunc (field : String) (data : EventData) (_b : RenderBaggage) : ReactNode :=
  .numberContainer (match getField data field with
    | .num q => .count q
    | _ => .emptyValueSpan)

/-- `FIELD_FORMATTERS.number.renderFunc`: `formatFloat(value, 4)` for
numbers, else the placeholder. -/
def numberRenderFunc (field : String) (data : EventData) (_b : RenderBaggage) : ReactNode :=
  .numberContainer (match getField data field with
    | .num q => .formattedFloat q 4
    | _ => .emptyValueSpan)

/-- `FIELD_FORMATTERS.percentage.renderFunc`: `formatPercentage(value)` for
numbers, else the placeholder. -/
def percentageRenderFunc (field : String) (data : EventData) (_b : RenderBaggage) : ReactNode :=
  .numberContainer (match getField data field with
    | .num q => .formattedPercentage q
    | _ => .emptyValueSpan)

/-- `Array.prototype.slice(-1)`: the one-element array holding the last
element, or the empty array for an empty array. -/
def jsSliceLast (vs : List Value) : List Value :=
  match vs.getLast? with
  | some l => [l]
  | none => []

/-- `FIELD_FORMATTERS.string.renderFunc`: arrays are cut to their last
element with `slice(-1)`; any other value is rendered raw. -/
def stringRenderFunc (field : String) (data : EventData) (_b : RenderBaggage) : ReactNode :=
  let value := match getField data field with
    | .arr vs => Value.arr (jsSliceLast vs)
    | v => v
  .container (.rvalue value)

/-- The `FIELD_FORMATTERS` registry, in source order. -/
def FIELD_FORMATTERS : List (String × FieldFormatter) :=
  [("boolean", ⟨true, booleanRenderFunc⟩),
   ("date", ⟨true, dateRenderFunc⟩),
   ("duration", ⟨true, durationRenderFunc⟩),
   ("integer", ⟨true, integerRenderFunc⟩),
   ("number", ⟨true, numberRenderFunc⟩),
   ("percentage", ⟨true, percentageRenderFunc⟩),
   ("string", ⟨true, stringRenderFunc⟩)]

/-- `FIELD_FORMATTERS.hasOwnProperty(t)` / `FIELD_FORMATTERS[t]` lookup. -/
def formatterLookup (t : String) : Option FieldFormatter :=
  assocLookup FIELD_FORMATTERS t

/-- A special field: its sort column (or `null`) and its render function
(`SpecialField` in the source). -/
structure SpecialField where
  sortField : Option String
  renderFunc : EventData → RenderBaggage → ReactNode

/-- `SPECIAL_FIELDS.id.renderFunc`: a copyable `EventId` when `data.id` is a
string, else `null`. -/
def idRenderFunc (data : EventData) (_b : RenderBaggage) : ReactNode :=
  match getField data "id" with
  | .str s => .container (.eventId s)
  | _ => .null

/-- `SPECIAL_FIELDS['issue.id'].renderFunc`: an overflow link to the issue
page labelled with the raw `issue.id` value. -/
def issueIdRenderFunc (data : EventData) (b : RenderBaggage) : ReactNode :=
  let issueId := getField data "issue.id"
  let target := "/organizations/" ++ b.organization.slug ++ "/issues/" ++
    jsToString issueId ++ "/"
  .container (.overflowLink target issueId (.rvalue issueId))

/-- `SPECIAL_FIELDS.issue.renderFunc`: a short-id badge, wrapped in an issue
link only when `data['issue.id']` is truthy. -/
def issueRenderFunc (data : EventData) (b : RenderBaggage) : ReactNode :=
  let issueID := getField data "issue.id"
  if !(jsTruthy issueID) then
    .container (.styledShortId (jsToString (getField data "issue")))
  else
    let target := "/organizations/" ++ b.organization.slug ++ "/issues/" ++
      jsToString issueID ++ "/"
    .container (.overflowLink target issueID
      (.styledShortId (jsToString (getField data "issue"))))

/-- `SPECIAL_FIELDS.project.renderFunc`: a project badge resolved through the
external async `Projects` provider (modelled as an uninterpreted element
carrying the organization slug and the row's project slug). -/
def projectRenderFunc (data : EventData) (b : RenderBaggage) : ReactNode :=
  .container (.projectsBadge b.organization.slug (getField data "project"))

/-- `SPECIAL_FIELDS.user.renderFunc`: a user badge built from the single
`user` field when truthy, else a dimmed empty-value placeholder. -/
def userRenderFunc (data : EventData) (_b : RenderBaggage) : ReactNode :=
  if jsTruthy (getField data "user") then
    .container (.userBadge (getField data "user"))
  else
    .emptyValueContainer .emptyValueSpan

/-- `SPECIAL_FIELDS.release.renderFunc`: `data.release && <Version .../>` —
the version element when truthy, otherwise the raw falsy value itself (which
React renders as nothing for `undefined`/`null`/`""`). -/
def releaseRenderFunc (data : EventData) (_b : RenderBaggage) : ReactNode :=
  if jsTruthy (getField data "release") then
    .versionContainer (.version (getField data "release"))
  else
    .rvalue (getField data "release")

/-- The `SPECIAL_FIELDS` registry, in source order. -/
def SPECIAL_FIELDS : List (String × SpecialField) :=
  [("id", ⟨some "id", idRenderFunc⟩),
   ("issue.id", ⟨some "issue.id", issueIdRenderFunc⟩),
   ("issue", ⟨none, issueRenderFunc⟩),
   ("project", ⟨some "project", projectRenderFunc⟩),
   ("user", ⟨some "user.id", userRenderFunc⟩),
   ("release", ⟨some "release", releaseRenderFunc⟩)]

/-- `SPECIAL_FIELDS.hasOwnProperty(f)` / `SPECIAL_FIELDS[f]` lookup. -/
def specialFieldLookup (f : String) : Option SpecialField :=
  assocLookup SPECIAL_FIELDS f

/-- The `for (const field in data)` loop of the `user_misery` renderer: it
overwrites `userMiseryField` on every key starting with `user_misery` and
never breaks, so the LAST matching key (in iteration order) is kept; `""`
when no key matches. -/
def findUserMiseryField (data : EventData) : String :=
  data.foldl (fun acc kv => if strStartsWith kv.1 "user_misery" then kv.1 else acc) ""

/-- The body of the `user_misery` renderer once the matched misery field is
fixed (everything in the source after the `if (!userMiseryField)` guard):
either the formatted-float fallback when `count_unique_user` is falsy and not
strictly `0`, or the score bar whose score is
`Math.floor((userMisery / Math.max(uniqueUsers, 1)) * palette.length)` with
`palette.length = 10`, under a tooltip whose duration is
`4 * parseInt(<trailing suffix of the matched field name>, 10)`. -/
def userMiseryRenderWith (userMiseryField : String) (data : EventData)
    (_b : RenderBaggage) : ReactNode :=
  let uniqueUsers := getField data "count_unique_user"
  let userMisery := getField data userMiseryField
  if !(jsTruthy uniqueUsers) && !(isNumZero uniqueUsers) then
    .numberContainer (match userMisery with
      | .num q => .formattedFloat q 4
      | _ => .emptyValueSpan)
  else
    let paletteLength : Nat := 10
    let score : Option Int := do
      let m ← jsToNumber userMisery
      let u ← jsToNumber uniqueUsers
      pure ⌊(m / max u 1) * (paletteLength : Rat)⌋
    let miseryLimit : Option Int :=
      jsParseInt ((jsSplit userMiseryField '_').getLast?.getD "")
    let miseryPercentage : Option Rat := do
      let m ← jsToNumber userMisery
      let u ← jsToNumber uniqueUsers
      pure ((100 * m) / max u 1)
    let title : MiseryTitle :=
      { affectedUsers := userMisery
        totalUsers := uniqueUsers
        miseryPercentage := miseryPercentage
        duration := miseryLimit.map (fun l => 4 * l) }
    .barContainer (.tooltip title (.scoreBar 20 score paletteLength 0))

/-- `SPECIAL_FUNCTIONS.user_misery`: the empty-value placeholder when no
`user_misery*` key is in the row, else `userMiseryRenderWith` on the key the
scan loop kept. -/
def userMiseryRenderFunc (data : EventData) (b : RenderBaggage) : ReactNode :=
  let userMiseryField := findUserMiseryField data
  if userMiseryField = "" then
    .numberContainer .emptyValueSpan
  else
    userMiseryRenderWith userMiseryField data b

/-- The `SPECIAL_FUNCTIONS` registry, in source order. -/
def SPECIAL_FUNCTIONS : List (String × (EventData → RenderBaggage → ReactNode)) :=
  [("user_misery", userMiseryRenderFunc)]

/-- `getSortField(field, tableMeta)`.  `AGGREGATIONS` is imported from a
module outside this fragment and is passed as a parameter: an association
list from aggregate alias to its `isSortable` flag, iterated in order with
the first prefix match returning. -/
def getSortField (aggregations : List (String × Bool)) (field : String)
    (tableMeta : Option MetaType) : Option String :=
  match specialFieldLookup field with
  | some sf => sf.sortField
  | none =>
    match tableMeta with
    | none => some field
    | some meta =>
      match findPrefixEntry aggregations field with
      | some a => if a.2 then some field else none
      | none =>
        match (metaLookup meta field).bind formatterLookup with
        | some fmt => if fmt.isSortable then some field else none
        | none => none

/-- `getFieldRenderer(field, meta)`.  `getAggregateAlias` is imported from a
module outside this fragment and is passed as the parameter `gaa`; all
theorems below hold for every choice of it. -/
def getFieldRenderer (gaa : String → String) (field : String) (meta : MetaType) :
    EventData → RenderBaggage → ReactNode :=
  match specialFieldLookup field with
  | some sf => sf.renderFunc
  | none =>
    let fieldName := gaa field
    let fieldType := metaLookup meta fieldName
    match findPrefixEntry SPECIAL_FUNCTIONS fieldName with
    | some a => a.2
    | none =>
      match fieldType.bind formatterLookup with
      | some fmt => fmt.renderFunc fieldName
      | none => stringRenderFunc fieldName

/-- Whether a `Value` is an array — the JavaScript test `Array.isArray(v)`. -/
def isArray : Value → Bool
  | .arr _ => true
  | _ => false

/-- Thread info (label and filename) extracted per thread/event pair by the
external `filterThreadInfo` helper (not part of this fragment). -/
structure ThreadInfo where
  label : String
  filename : String

/-- A stack-trace thread as consumed by the `ThreadSelector`: the component
reads its `id`, `name` and `crashed` flag. -/
structure Thread where
  id : Int
  name : String
  crashed : Bool

/-- The event object; opaque to the `ThreadSelector` (it is only passed on to
the external extraction helpers). -/
structure Event where
  mk ::

/-- Exception entry data returned by the external `getThreadException`
helper; opaque to the `ThreadSelector`. -/
structure EntryTypeData where
  mk ::

/-- The props the `ThreadSelector` passes to the `Option` element of a
dropdown entry. -/
structure OptionElement where
  id : Int
  details : ThreadInfo
  name : String
  crashed : Bool
  crashedInfo : Option EntryTypeData

/-- A dropdown entry built by `ThreadSelector.getDropDownItem`: the filterable
`value` string, the extracted thread info, the thread itself and the rendered
option label. -/
structure DropdownItem where
  value : String
  threadInfo : ThreadInfo
  thread : Thread
  label : OptionElement

/-- `ThreadSelector.getDropDownItem`: builds the dropdown entry for one
thread.  `filterThreadInfo` and `getThreadException` live outside this
fragment and are taken as parameters.  The filterable value string is the
template literal `#${thread.id}: ${thread.name} ${threadInfo.label}
${threadInfo.filename}`, and exception info is fetched exactly when the
thread's `crashed` flag is set. -/
def getDropDownItem (filterThreadInfo : Thread → Event → ThreadInfo)
    (getThreadException : Thread → Event → EntryTypeData)
    (event : Event) (thread : Thread) : DropdownItem :=
  let threadInfo := filterThreadInfo thread event
  let dropDownValue := "#" ++ toString thread.id ++ ": " ++ thread.name ++ " " ++
    threadInfo.label ++ " " ++ threadInfo.filename
  let crashedInfo : Option EntryTypeData :=
    if thread.crashed then some (getThreadException thread event) else none
  { value := dropDownValue
    threadInfo := threadInfo
    thread := thread
    label :=
      { id := thread.id
        details := threadInfo
        name := thread.name
        crashed := thread.crashed
        crashedInfo := crashedInfo } }

/-- The scan loop of the `user_misery` renderer keeps the LAST key starting
with `user_misery` (in iteration order), `""` when there is none: the
accumulator is overwritten at every match and the loop never breaks. -/
theorem findUserMiseryField_eq_last (data : EventData) :
    findUserMiseryField data =
      (((data.map Prod.fst).filter
        (fun k => strStartsWith k "user_misery")).getLast?).getD "" := by
  unfold findUserMiseryField
  induction data using List.reverseRecOn with
  | nil => rfl
  | append_singleton l x ih =>
    by_cases h : strStartsWith x.1 "user_misery" = true
    · simp [List.foldl_append, List.filter_append, h]
    · simp only [List.foldl_append, List.foldl_cons, List.foldl_nil,
        List.map_append, List.filter_append]
      simp [h, ih]

/-- C1: `getFieldRenderer` resolves in priority order: an exact match in
`SPECIAL_FIELDS` wins; otherwise, if the aggregate-alias-normalized field
name starts with a special-function prefix, that special function wins;
otherwise the formatter registered for the meta-declared type of the
normalized name is used (bound to the normalized name); otherwise the string
formatter is the default.  Holds for every normalization function `gaa`. -/
theorem getFieldRenderer_priority (gaa : String → String) (field : String)
    (meta : MetaType) :
    (∀ sf, specialFieldLookup field = some sf →
      getFieldRenderer gaa field meta = sf.renderFunc) ∧
    (specialFieldLookup field = none →
      strStartsWith (gaa field) "user_misery" = true →
      getFieldRenderer gaa field meta = userMiseryRenderFunc) ∧
    (specialFieldLookup field = none →
      strStartsWith (gaa field) "user_misery" = false →
      ∀ t fmt, metaLookup meta (gaa field) = some t → formatterLookup t = some fmt →
        getFieldRenderer gaa field meta = fmt.renderFunc (gaa field)) ∧
    (specialFieldLookup field = none →
      strStartsWith (gaa field) "user_misery" = false →
      (metaLookup meta (gaa field)).bind formatterLookup = none →
      getFieldRenderer gaa field meta = stringRenderFunc (gaa field)) := by
  refine ⟨?_, ?_, ?_, ?_⟩
  · intro sf h
    simp [getFieldRenderer, h]
  · intro h1 h2
    simp [getFieldRenderer, h1, SPECIAL_FUNCTIONS, findPrefixEntry, h2]
  · intro h1 h2 t fmt h3 h4
    simp [getFieldRenderer, h1, SPECIAL_FUNCTIONS, findPrefixEntry, h2, h3, h4]
  · intro h1 h2 h3
    simp [getFieldRenderer, h1, SPECIAL_FUNCTIONS, findPrefixEntry, h2]
    rcases h : metaLookup meta (gaa field) with _ | t
    · simp [h]
    · rw [h] at h3
      simp at h3
      simp [h, h3]

/-- Witness for C1: each of the four priority branches at a concrete input —
the special field `issue`, the special function prefix on `user_misery_300`,
the `duration` formatter for a meta-typed field, and the string default for a
field without meta type. -/
theorem getFieldRenderer_priority_witness :
    getFieldRenderer id "issue" [] = issueRenderFunc ∧
    getFieldRenderer id "user_misery_300" [] = userMiseryRenderFunc ∧
    getFieldRenderer id "transaction.duration" [("transaction.duration", "duration")] =
      durationRenderFunc "transaction.duration" ∧
    getFieldRenderer id "custom_tag" [] = stringRenderFunc "custom_tag" := by
  refine ⟨?_, ?_, ?_, ?_⟩
  · exact (getFieldRenderer_priority id "issue" []).1 ⟨none, issueRenderFunc⟩ rfl
  · exact (getFieldRenderer_priority id "user_misery_300" []).2.1 rfl (by decide)
  · exact (getFieldRenderer_priority id "transaction.duration"
      [("transaction.duration", "duration")]).2.2.1 rfl (by decide)
      "duration" ⟨true, durationRenderFunc⟩ (by simp [metaLookup, assocLookup])
      (by simp [formatterLookup, FIELD_FORMATTERS, assocLookup])
  · exact (getFieldRenderer_priority id "custom_tag" []).2.2.2 rfl (by decide) rfl

/-- C4: the string formatter renders an array value cut to its last element
(`slice(-1)` keeps exactly the one-element tail), and renders every non-array
value raw and unchanged. -/
theorem stringFormatter_array_tail (field : String) (data : EventData)
    (b : RenderBaggage) :
    (∀ vs l, getField data field = .arr vs → vs.getLast? = some l →
      stringRenderFunc field data b = .container (.rvalue (.arr [l]))) ∧
    (isArray (getField data field) = false →
      stringRenderFunc field data b = .container (.rvalue (getField data field))) := by
  constructor
  · intro vs l h hl
    simp [stringRenderFunc, h, jsSliceLast, hl]
  · intro h
    cases hv : getField data field <;> simp [hv, isArray] at h ⊢ <;>
      simp [stringRenderFunc, hv]

/-- Witness for C4: on `{tags: ["a","b","c"]}` the string formatter renders
the array `["c"]`, whose React text content is exactly `"c"`; on a plain
string value it renders the raw value. -/
theorem stringFormatter_array_tail_witness :
    stringRenderFunc "tags" [("tags", .arr [.str "a", .str "b", .str "c"])]
        ⟨⟨"org"⟩, .mk⟩ =
      .container (.rvalue (.arr [.str "c"])) ∧
    reactValueText (.arr [.str "c"]) = "c" ∧
    stringRenderFunc "message" [("message", .str "boom")] ⟨⟨"org"⟩, .mk⟩ =
      .container (.rvalue (.str "boom")) := by
  refine ⟨?_, ?_, ?_⟩
  · exact (stringFormatter_array_tail "tags"
      [("tags", .arr [.str "a", .str "b", .str "c"])] ⟨⟨"org"⟩, .mk⟩).1
      [.str "a", .str "b", .str "c"] (.str "c") rfl rfl
  · rfl
  · exact (stringFormatter_array_tail "message" [("message", .str "boom")]
      ⟨⟨"org"⟩, .mk⟩).2 rfl

/-- C5: each number-expecting formatter (duration, integer, number,
percentage) renders the empty-value placeholder inside a numeric container
whenever the stored value is not a number (including an absent field). -/
theorem numberFormatters_nonNumber_placeholder (field : String)
    (data : EventData) (b : RenderBaggage)
    (h : isNum (getField data field) = false) :
    durationRenderFunc field data b = .numberContainer .emptyValueSpan ∧
    integerRenderFunc field data b = .numberContainer .emptyValueSpan ∧
    numberRenderFunc field data b = .numberContainer .emptyValueSpan ∧
    percentageRenderFunc field data b = .numberContainer .emptyValueSpan := by
  cases hv : getField data field <;> simp [hv, isNum] at h ⊢ <;>
    simp [durationRenderFunc, integerRenderFunc, numberRenderFunc,
      percentageRenderFunc, hv]

/-- Witness for C5: a string stored where a number is expected — all four
numeric formatters produce the placeholder. -/
theorem numberFormatters_nonNumber_placeholder_witness :
    durationRenderFunc "transaction.duration"
        [("transaction.duration", .str "fast")] ⟨⟨"org"⟩, .mk⟩ =
      .numberContainer .emptyValueSpan ∧
    integerRenderFunc "transaction.duration"
        [("transaction.duration", .str "fast")] ⟨⟨"org"⟩, .mk⟩ =
      .numberContainer .emptyValueSpan ∧
    numberRenderFunc "transaction.duration"
        [("transaction.duration", .str "fast")] ⟨⟨"org"⟩, .mk⟩ =
      .numberContainer .emptyValueSpan ∧
    percentageRenderFunc "transaction.duration"
        [("transaction.duration", .str "fast")] ⟨⟨"org"⟩, .mk⟩ =
      .numberContainer .emptyValueSpan :=
  numberFormatters_nonNumber_placeholder "transaction.duration"
    [("transaction.duration", .str "fast")] ⟨⟨"org"⟩, .mk⟩ (by decide)

/-- C6: `getSortField('issue', meta)` is `null` for every meta argument
(present or absent, with any contents) and every aggregation table: the
`issue` special field declares a `null` sort column and wins the lookup. -/
theorem getSortField_issue_always_null (aggregations : List (String × Bool))
    (tableMeta : Option MetaType) :
    getSortField aggregations "issue" tableMeta = none := rfl

/-- C7: with no meta supplied, `getSortField` returns every non-special field
name unchanged; and `getSortField('id', undefined) = 'id'` (for `id` through
the special-field branch, whose declared sort column is `id` itself). -/
theorem getSortField_noMeta (aggregations : List (String × Bool)) :
    (∀ field, specialFieldLookup field = none →
      getSortField aggregations field none = some field) ∧
    getSortField aggregations "id" none = some "id" := by
  constructor
  · intro field h
    simp [getSortField, h]
  · rfl

/-- Witness for C7: a non-special column name is returned unchanged, and
`id` maps to `id`. -/
theorem getSortField_noMeta_witness :
    getSortField [] "custom_column" none = some "custom_column" ∧
    getSortField [] "id" none = some "id" :=
  ⟨(getSortField_noMeta []).1 "custom_column" rfl, (getSortField_noMeta []).2⟩

/-- C2 (counterexample): on a row holding two `user_misery*` fields the
renderer reads the LAST matching field (`user_misery_600`, value 20, tooltip
duration 2400), not the first (`user_misery_300`, value 10, duration 1200) —
the scan loop has no break and keeps overwriting its variable. -/
theorem userMisery_first_field_counterexample :
    userMiseryRenderFunc
        [("user_misery_300", .num 10), ("user_misery_600", .num 20),
         ("count_unique_user", .num 100)] ⟨⟨"org"⟩, .mk⟩ =
      .barContainer (.tooltip
        { affectedUsers := .num 20
          totalUsers := .num 100
          miseryPercentage := some 20
          duration := some 2400 }
        (.scoreBar 20 (some 2) 10 0)) ∧
    ReactNode.barContainer (.tooltip
        { affectedUsers := .num 20
          totalUsers := .num 100
          miseryPercentage := some 20
          duration := some 2400 }
        (.scoreBar 20 (some 2) 10 0)) ≠
      .barContainer (.tooltip
        { affectedUsers := .num 10
          totalUsers := .num 100
          miseryPercentage := some 10
          duration := some 1200 }
        (.scoreBar 20 (some 1) 10 0)) := by
  constructor
  · have hf : findUserMiseryField
        [("user_misery_300", .num 10), ("user_misery_600", .num 20),
         ("count_unique_user", .num 100)] = "user_misery_600" := by decide
    have hp : jsParseInt ((jsSplit "user_misery_600" '_').getLast?.getD "") = some 600 := by
      decide
    simp [userMiseryRenderFunc, userMiseryRenderWith, hf, hp, getField,
      assocLookup, jsTruthy, isNumZero, jsToNumber]
    norm_num
  · intro h
    simp only [ReactNode.barContainer.injEq, ReactNode.tooltip.injEq,
      MiseryTitle.mk.injEq, Value.num.injEq, ReactNode.scoreBar.injEq,
      Option.some.injEq] at h
    norm_num at h

/-- C2 (amended): the `user_misery` renderer uses the LAST field of the row
(in iteration order) whose name starts with `user_misery`; when the row has
no such field it renders the empty-value placeholder inside a numeric
container (and does not fail). -/
theorem userMisery_uses_last_matching_field (data : EventData) (b : RenderBaggage) :
    ((data.map Prod.fst).filter (fun k => strStartsWith k "user_misery") = [] →
      userMiseryRenderFunc data b = .numberContainer .emptyValueSpan) ∧
    (∀ f,
      ((data.map Prod.fst).filter (fun k => strStartsWith k "user_misery")).getLast?
        = some f →
      userMiseryRenderFunc data b = userMiseryRenderWith f data b) := by
  constructor
  · intro h
    have hf : findUserMiseryField data = "" := by
      rw [findUserMiseryField_eq_last, h]
      rfl
    simp [userMiseryRenderFunc, hf]
  · intro f h
    have hmem : f ∈ (data.map Prod.fst).filter (fun k => strStartsWith k "user_misery") := by
      obtain ⟨hne, rfl⟩ := List.mem_getLast?_eq_getLast h
      exact List.getLast_mem _
    have hsw : strStartsWith f "user_misery" = true := (List.mem_filter.mp hmem).2
    have hne : ¬(f = "") := by
      intro hf0
      rw [hf0] at hsw
      exact absurd hsw (by decide)
    have hf : findUserMiseryField data = f := by
      rw [findUserMiseryField_eq_last, h]
      rfl
    simp [userMiseryRenderFunc, hf, hne]

/-- Witness for the amended C2: a row with two misery fields renders through
the second one, and a row with none renders the placeholder. -/
theorem userMisery_uses_last_matching_field_witness :
    userMiseryRenderFunc
        [("user_misery_300", .num 10), ("user_misery_600", .num 20),
         ("count_unique_user", .num 100)] ⟨⟨"org"⟩, .mk⟩ =
      userMiseryRenderWith "user_misery_600"
        [("user_misery_300", .num 10), ("user_misery_600", .num 20),
         ("count_unique_user", .num 100)] ⟨⟨"org"⟩, .mk⟩ ∧
    userMiseryRenderFunc [("count_unique_user", .num 100)] ⟨⟨"org"⟩, .mk⟩ =
      .numberContainer .emptyValueSpan :=
  ⟨(userMisery_uses_last_matching_field
      [("user_misery_300", .num 10), ("user_misery_600", .num 20),
       ("count_unique_user", .num 100)] ⟨⟨"org"⟩, .mk⟩).2 "user_misery_600" (by decide),
   (userMisery_uses_last_matching_field
      [("count_unique_user", .num 100)] ⟨⟨"org"⟩, .mk⟩).1 (by decide)⟩

/-- C3: with a numeric unique-user count `u` and a numeric misery value `m`,
the `user_misery` renderer renders a score bar with score
`floor((m / max(u, 1)) * 10)` and a tooltip whose duration is 4 times the
integer parsed from the trailing `_`-suffix of the matched field name. -/
theorem userMisery_score_and_duration (data : EventData) (b : RenderBaggage)
    (u m : Rat) (f : String) (L : Int)
    (hu : getField data "count_unique_user" = .num u)
    (hf : findUserMiseryField data = f) (hne : f ≠ "")
    (hm : getField data f = .num m)
    (hL : jsParseInt ((jsSplit f '_').getLast?.getD "") = some L) :
    userMiseryRenderFunc data b =
      .barContainer (.tooltip
        { affectedUsers := .num m
          totalUsers := .num u
          miseryPercentage := some ((100 * m) / max u 1)
          duration := some (4 * L) }
        (.scoreBar 20 (some ⌊(m / max u 1) * 10⌋) 10 0)) := by
  have hcond : (!(jsTruthy (Value.num u)) && !(isNumZero (Value.num u))) = false := by
    by_cases hz : u = 0 <;> simp [jsTruthy, isNumZero, hz]
  simp [userMiseryRenderFunc, hf, hne, userMiseryRenderWith, hu, hm, hL, hcond,
    jsToNumber]

/-- Witness for C3: on `{count_unique_user: 100, user_misery_300: 10}` the
score is `floor((10/100)*10) = 1` and the tooltip duration is
`4 * 300 = 1200` ms. -/
theorem userMisery_score_and_duration_witness :
    userMiseryRenderFunc
        [("count_unique_user", .num 100), ("user_misery_300", .num 10)]
        ⟨⟨"org"⟩, .mk⟩ =
      .barContainer (.tooltip
        { affectedUsers := .num 10
          totalUsers := .num 100
          miseryPercentage := some 10
          duration := some 1200 }
        (.scoreBar 20 (some 1) 10 0)) := by
  have h := userMisery_score_and_duration
    [("count_unique_user", .num 100), ("user_misery_300", .num 10)]
    ⟨⟨"org"⟩, .mk⟩ 100 10 "user_misery_300" 300
    rfl (by decide) (by decide) rfl (by decide)
  rw [h]
  have hmax : max (100 : Rat) 1 = 100 := by norm_num
  rw [hmax]
  norm_num

/-- C9: when `count_unique_user` is the number `0` (and a misery field is
present) the renderer takes the score-bar path — `0` fails the strict
`!== 0` test even though it is falsy — and the divisor clamps to
`max(0, 1) = 1`, so the score is `floor(m * 10)`; the formatted-float
fallback is reserved for an absent/non-strict-zero falsy count. -/
theorem userMisery_zeroUsers_scorePath (data : EventData) (b : RenderBaggage)
    (f : String)
    (hu : getField data "count_unique_user" = .num 0)
    (hf : findUserMiseryField data = f) (hne : f ≠ "") :
    userMiseryRenderFunc data b =
      .barContainer (.tooltip
        { affectedUsers := getField data f
          totalUsers := .num 0
          miseryPercentage := (jsToNumber (getField data f)).map (fun m => 100 * m)
          duration := (jsParseInt ((jsSplit f '_').getLast?.getD "")).map
            (fun l => 4 * l) }
        (.scoreBar 20 ((jsToNumber (getField data f)).map (fun m => ⌊m * 10⌋)) 10 0)) := by
  have hmax : max (0 : Rat) 1 = 1 := by norm_num
  have h0 : jsToNumber (Value.num 0) = some 0 := rfl
  have hT : jsTruthy (Value.num 0) = false := by decide
  have hZ : isNumZero (Value.num 0) = true := by decide
  cases hj : jsToNumber (getField data f) with
  | none =>
    simp [userMiseryRenderFunc, hf, hne, userMiseryRenderWith, hu, hT, hZ, h0,
      hj, hmax]
  | some m =>
    simp [userMiseryRenderFunc, hf, hne, userMiseryRenderWith, hu, hT, hZ, h0,
      hj, hmax]

/-- Witness for C9: `{count_unique_user: 0, user_misery_300: 10}` renders the
score bar with divisor 1 — score `floor(10 * 10) = 100` — and not the
formatted-float fallback. -/
theorem userMisery_zeroUsers_scorePath_witness :
    userMiseryRenderFunc
        [("count_unique_user", .num 0), ("user_misery_300", .num 10)]
        ⟨⟨"org"⟩, .mk⟩ =
      .barContainer (.tooltip
        { affectedUsers := .num 10
          totalUsers := .num 0
          miseryPercentage := some 1000
          duration := some 1200 }
        (.scoreBar 20 (some 100) 10 0)) := by
  have h := userMisery_zeroUsers_scorePath
    [("count_unique_user", .num 0), ("user_misery_300", .num 10)]
    ⟨⟨"org"⟩, .mk⟩ "user_misery_300" rfl (by decide) (by decide)
  rw [h]
  have hp : jsParseInt ((jsSplit "user_misery_300" '_').getLast?.getD "") = some 300 := by
    decide
  simp [getField, assocLookup, jsToNumber, hp]
  norm_num

/-- C10: the `issue` special field treats every falsy `issue.id` value
(absent/`undefined`, the number `0`, the empty string) as not present and
renders the short-id badge without a navigation link; it wraps the badge in
the organization issue link exactly when `issue.id` is truthy. -/
theorem issueField_link_iff_truthy (data : EventData) (b : RenderBaggage) :
    (jsTruthy Value.undefined = false ∧ jsTruthy (Value.num 0) = false ∧
      jsTruthy (Value.str "") = false) ∧
    (jsTruthy (getField data "issue.id") = false →
      issueRenderFunc data b =
        .container (.styledShortId (jsToString (getField data "issue")))) ∧
    (jsTruthy (getField data "issue.id") = true →
      issueRenderFunc data b =
        .container (.overflowLink
          ("/organizations/" ++ b.organization.slug ++ "/issues/" ++
            jsToString (getField data "issue.id") ++ "/")
          (getField data "issue.id")
          (.styledShortId (jsToString (getField data "issue"))))) := by
  refine ⟨by decide, ?_, ?_⟩ <;> intro h <;> simp [issueRenderFunc, h]

/-- Witness for C10: a row without `issue.id` renders the bare badge, and a
row with the truthy id `123` renders the badge wrapped in the issue link. -/
theorem issueField_link_iff_truthy_witness :
    issueRenderFunc [("issue", .str "PROJ-1")] ⟨⟨"acme"⟩, .mk⟩ =
      .container (.styledShortId "PROJ-1") ∧
    issueRenderFunc [("issue.id", .num 123), ("issue", .str "PROJ-1")]
        ⟨⟨"acme"⟩, .mk⟩ =
      .container (.overflowLink "/organizations/acme/issues/123/" (.num 123)
        (.styledShortId "PROJ-1")) := by
  constructor
  · have h := (issueField_link_iff_truthy [("issue", .str "PROJ-1")]
      ⟨⟨"acme"⟩, .mk⟩).2.1 (by decide)
    rw [h]
    rfl
  · have h := (issueField_link_iff_truthy
      [("issue.id", .num 123), ("issue", .str "PROJ-1")] ⟨⟨"acme"⟩, .mk⟩).2.2
      (by decide)
    rw [h]
    rfl

/-- C8: for every thread of the thread list the `ThreadSelector` builds a
dropdown entry (the component maps `getDropDownItem` over the list) whose
filterable value string is exactly `#id: name label filename` — id, name and
the externally extracted thread info together — and exception (crashed) info
is fetched for the entry if and only if the thread's `crashed` flag is set.
Holds for every choice of the external `filterThreadInfo`/`getThreadException`
helpers. -/
theorem getDropDownItem_value_and_crash (fti : Thread → Event → ThreadInfo)
    (gte : Thread → Event → EntryTypeData) (e : Event) (threads : List Thread)
    (t : Thread) (ht : t ∈ threads) :
    getDropDownItem fti gte e t ∈ threads.map (getDropDownItem fti gte e) ∧
    (getDropDownItem fti gte e t).value =
      "#" ++ toString t.id ++ ": " ++ t.name ++ " " ++ (fti t e).label ++ " " ++
        (fti t e).filename ∧
    (getDropDownItem fti gte e t).label.crashedInfo.isSome = t.crashed ∧
    (t.crashed = true →
      (getDropDownItem fti gte e t).label.crashedInfo = some (gte t e)) := by
  refine ⟨List.mem_map_of_mem _ ht, rfl, ?_, ?_⟩
  · cases hc : t.crashed <;> simp [getDropDownItem, hc]
  · intro hc
    simp [getDropDownItem, hc]

/-- Witness for C8: a crashed thread `#1: main` with concrete extraction
helpers — the filterable value concatenates id, name, label and filename, and
the exception info is fetched. -/
theorem getDropDownItem_value_and_crash_witness :
    (getDropDownItem (fun _ _ => ⟨"lbl", "file.c"⟩) (fun _ _ => ⟨⟩) .mk
        ⟨1, "main", true⟩).value = "#1: main lbl file.c" ∧
    (getDropDownItem (fun _ _ => ⟨"lbl", "file.c"⟩) (fun _ _ => ⟨⟩) .mk
        ⟨1, "main", true⟩).label.crashedInfo = some ⟨⟩ := by
  have h := getDropDownItem_value_and_crash (fun _ _ => ⟨"lbl", "file.c"⟩)
    (fun _ _ => ⟨⟩) .mk [⟨1, "main", true⟩] ⟨1, "main", true⟩ (by simp)
  exact ⟨h.2.1, h.2.2.2 rfl⟩
